import Mathlib

/-!
Verification of the per-connection I/O engine `TCPPeer` (src/src/overlay/TCPPeer.cpp)
against its natural-language specification.

The C++ class is shallowly embedded as two explicit-state models:

* `PeerState` with the operations `drop`, `destruct` (the destructor),
  `startIdleTimer`, `idleTimerExpired`, `startRead`, `getIncomingMsgLength`,
  `readHeaderHandler`, `readBodyHandler`, `recvMessage`, `connected`, `accept`
  — the connection state machine, the read pipeline and the idle watchdog.
* `WriteState` with `sendMessage`, `messageSender`, `writeHandler` and
  `writeCompletion` — the outbound write queue, driven by event traces.

All callbacks of one connection run on one strand (serialized execution), so
each handler is a pure state-to-state function and asynchronous behaviour is
an explicit event trace.  Machine integers: the C++ `int` length computation
operates on header bytes `< 256`, so it can neither overflow nor go negative
(max value `0x7FFFFFFF`), and is modelled on `Nat`; time points are modelled
as `Int` seconds.  Meters (`medida`) are modelled as ghost counters, and the
registry deregistration (`OverlayManager::dropPeer`) and `socket->close()`
calls are counted by ghost fields `deregCalls` / `closeCalls`.
-/

/-- `#define IO_TIMEOUT_SECONDS 30` (TCPPeer.cpp line 17). -/
def IO_TIMEOUT_SECONDS : Int := 30

/-- `#define MAX_MESSAGE_SIZE 0x1000000` (TCPPeer.cpp line 18). -/
def MAX_MESSAGE_SIZE : Nat := 0x1000000

/-- Connection states.  Modelled from the spec: `Connecting → Connected →
Closing (terminal)`; the enum itself lives in the `Peer` base class, which is
not under src/.  Only `CLOSING` is mentioned by TCPPeer.cpp (line 388). -/
inductive PState where
  | CONNECTING
  | CONNECTED
  | CLOSING
deriving DecidableEq, Repr

/-- `Peer::PeerRole` as used at lines 64 and 81. -/
inductive PeerRole where
  | WE_CALLED_REMOTE
  | REMOTE_CALLED_US
deriving DecidableEq, Repr

/-- The connection-local state of a `TCPPeer`, plus ghost instrumentation.

Source fields: `mState` (base class) → `state`; `mLastRead`/`mLastWrite`
(lines 36-37) → `lastRead`/`lastWrite`; `mIncomingHeader` → `header` (a list
of byte values); `mIncomingBody`'s size after `resize` → `bodySize`; the idle
timer's pending-wait → `timerArmed`; meters `mByteRead`, `mErrorRead`,
`mTimeoutRead`, `mTimeoutWrite`, `mMessageRead` → counters of the same names.

`socketOpen` mirrors the asio socket's is_open status: true for an
established handle, set false by `socket->close()` (so the destructor's
throwing `cancel()` fails on an already-closed socket).

Ghost fields: `headerReadPending`/`bodyReadPending` record that an
`asio::async_read` of the header resp. body has been issued and not yet
completed; `sinkCalls` counts invocations of the MessageSink
(`Peer::recvMessage`); `deregCalls` counts `OverlayManager::dropPeer` calls;
`closeCalls` counts `socket->close()` calls. -/
structure PeerState where
  state : PState
  role : PeerRole
  lastRead : Int
  lastWrite : Int
  timerArmed : Bool
  socketOpen : Bool
  header : List Nat
  bodySize : Nat
  headerReadPending : Bool
  bodyReadPending : Bool
  sinkCalls : Nat
  messageRead : Nat
  byteRead : Nat
  errorRead : Nat
  timeoutRead : Nat
  timeoutWrite : Nat
  deregCalls : Nat
  closeCalls : Nat
deriving DecidableEq, Repr

/-- Modelled from the spec: `Peer::shouldAbort` is declared in the base class
(not under src/); per the spec, teardown state is terminal and guards
`startRead`/`startIdleTimer`, so it holds exactly when the state is Closing. -/
def shouldAbort (s : PeerState) : Bool :=
  s.state == PState.CLOSING

/-- Modelled from the spec: `Peer::isConnected` is declared in the base class
(not under src/); it holds when the connection state is Connected. -/
def isConnected (s : PeerState) : Bool :=
  s.state == PState.CONNECTED

/-- `TCPPeer::drop` (lines 385-418): if `mState == CLOSING` return;
otherwise set `mState = CLOSING`, cancel the idle timer, call
`OverlayManager::dropPeer` (counted by `deregCalls`), and close the socket
(counted by `closeCalls`; close errors are swallowed). -/
def drop (s : PeerState) : PeerState :=
  if s.state = PState.CLOSING then s
  else
    { s with
      state := PState.CLOSING
      timerArmed := false
      deregCalls := s.deregCalls + 1
      closeCalls := s.closeCalls + 1
      socketOpen := false }

/-- `TCPPeer::~TCPPeer` (lines 87-107): cancel the idle timer; then, in one
try-block, `mSocket->cancel()` followed by `mSocket->close()` (`mSocket` is
always non-null in this model).  On an open socket both succeed and the
handle is closed.  On a socket already closed by `drop()`, the throwing
`cancel()` overload fails with bad_descriptor, the catch swallows the
`asio::system_error`, and the `close()` after it is never reached. -/
def destruct (s : PeerState) : PeerState :=
  if s.socketOpen then
    { s with
      timerArmed := false
      closeCalls := s.closeCalls + 1
      socketOpen := false }
  else
    { s with timerArmed := false }

/-- `TCPPeer::startIdleTimer` (lines 109-124): if `shouldAbort()` return;
otherwise set the timer to expire in `IO_TIMEOUT_SECONDS` and wait on it. -/
def startIdleTimer (s : PeerState) : PeerState :=
  if shouldAbort s then s
  else { s with timerArmed := true }

/-- `TCPPeer::idleTimerExpired` (lines 126-149): on a tick without a timer
error, compare `now` against `mLastRead` and `mLastWrite`; a read stall marks
`mTimeoutRead` and drops, else a write stall marks `mTimeoutWrite` and drops,
else the timer is re-armed.  `error` is the timer completion error code. -/
def idleTimerExpired (error : Bool) (now : Int) (s : PeerState) : PeerState :=
  if !error then
    if now - s.lastRead > IO_TIMEOUT_SECONDS then
      drop { s with timeoutRead := s.timeoutRead + 1 }
    else if now - s.lastWrite > IO_TIMEOUT_SECONDS then
      drop { s with timeoutWrite := s.timeoutWrite + 1 }
    else
      startIdleTimer s
  else s

/-- `TCPPeer::startRead` (lines 226-260): if `shouldAbort()` return;
otherwise (header buffer asserted empty) set `mLastRead` to the current time,
resize `mIncomingHeader` to 4 bytes and issue the exact 4-byte header read
(`headerReadPending`).  The `asio::system_error` catch path (an exception
thrown while initiating the read) is exogenous and not modelled. -/
def startRead (now : Int) (s : PeerState) : PeerState :=
  if shouldAbort s then s
  else
    { s with
      lastRead := now
      header := [0, 0, 0, 0]
      headerReadPending := true }

/-- The length computation of `TCPPeer::getIncomingMsgLength` (lines 265-272):
`length = mIncomingHeader[0]; length &= 0x7f; length <<= 8;
length |= mIncomingHeader[1]; ...`.  Header bytes are `< 256`, so the C++
`int` value stays within `0x7FFFFFFF` and is faithfully a `Nat`. -/
def getIncomingMsgLengthValue (hdr : List Nat) : Nat :=
  let length := hdr.getD 0 0 &&& 0x7f
  let length := (length <<< 8) ||| hdr.getD 1 0
  let length := (length <<< 8) ||| hdr.getD 2 0
  let length := (length <<< 8) ||| hdr.getD 3 0
  length

/-- `TCPPeer::getIncomingMsgLength` (lines 262-282): compute the masked
31-bit length; if it exceeds `MAX_MESSAGE_SIZE`, mark `mErrorRead` and call
`drop()`; in either case RETURN the computed length to the caller.  (The C++
`length < 0` disjunct is unreachable for byte-valued input and is omitted:
the masked value is at most `0x7FFFFFFF`.) -/
def getIncomingMsgLength (s : PeerState) : PeerState × Nat :=
  let length := getIncomingMsgLengthValue s.header
  if length > MAX_MESSAGE_SIZE then
    (drop { s with errorRead := s.errorRead + 1 }, length)
  else
    (s, length)

/-- `TCPPeer::recvMessage` (lines 357-383): mark `mMessageRead`, then XDR-
decode the body (authenticated or plain schema) and hand the message to
`Peer::recvMessage` (the MessageSink, counted by `sinkCalls`); a
`xdr_runtime_error` (modelled by `decodeOk = false`) drops the connection. -/
def recvMessage (decodeOk : Bool) (s : PeerState) : PeerState :=
  let s1 := { s with messageRead := s.messageRead + 1 }
  if decodeOk then { s1 with sinkCalls := s1.sinkCalls + 1 }
  else drop s1

/-- `TCPPeer::readHeaderHandler` (lines 290-325).  Precondition of the model:
`s.header` holds the 4 bytes the completed read deposited in
`mIncomingHeader`.  On success (`error = false`): mark `mByteRead` with
`bytes`, call `getIncomingMsgLength` (which may itself drop), resize
`mIncomingBody` to the RETURNED length (`bodySize`), and issue the body read
(`bodyReadPending`) — both unconditionally.  On error: mark `mErrorRead` if
still connected, then `drop()`. -/
def readHeaderHandler (error : Bool) (bytes : Nat) (s : PeerState) : PeerState :=
  if !error then
    let s1 := { s with byteRead := s.byteRead + bytes, headerReadPending := false }
    match getIncomingMsgLength s1 with
    | (s2, len) => { s2 with bodySize := len, bodyReadPending := true }
  else
    let s1 := { s with headerReadPending := false }
    let s2 := if isConnected s1 then { s1 with errorRead := s1.errorRead + 1 } else s1
    drop s2

/-- `TCPPeer::readBodyHandler` (lines 327-355), composed with the completion
lambda of lines 306-310 which first clears `mIncomingHeader`.  On success:
mark `mByteRead`, run `recvMessage`, then `startRead` at the current time.
On error: mark `mErrorRead` if still connected, then `drop()`. -/
def readBodyHandler (error : Bool) (bytes : Nat) (decodeOk : Bool) (now : Int)
    (s : PeerState) : PeerState :=
  let s0 := { s with header := [], bodyReadPending := false }
  if !error then
    let s1 := { s0 with byteRead := s0.byteRead + bytes }
    let s2 := recvMessage decodeOk s1
    startRead now s2
  else
    let s2 := if isConnected s0 then { s0 with errorRead := s0.errorRead + 1 } else s0
    drop s2

/-- The `TCPPeer` constructor (lines 31-55): `mLastRead` and `mLastWrite` are
initialised to the current clock time; counters start at zero; no timer is
armed and no read is pending.  The initial `mState` is set by the `Peer` base
class constructor, which is not under src/; modelled from the spec: an
Acceptor is immediately Connected, an Initiator starts Connecting. -/
def initPeer (role : PeerRole) (now : Int) : PeerState :=
  { state := match role with
      | PeerRole.REMOTE_CALLED_US => PState.CONNECTED
      | PeerRole.WE_CALLED_REMOTE => PState.CONNECTING
    role := role
    lastRead := now
    lastWrite := now
    timerArmed := false
    socketOpen := true
    header := []
    bodySize := 0
    headerReadPending := false
    bodyReadPending := false
    sinkCalls := 0
    messageRead := 0
    byteRead := 0
    errorRead := 0
    timeoutRead := 0
    timeoutWrite := 0
    deregCalls := 0
    closeCalls := 0 }

/-- `TCPPeer::accept` (lines 76-85): construct the peer with role
`REMOTE_CALLED_US` from the already-connected socket, then call
`startRead()`.  Nothing else is called: in particular `startIdleTimer()` is
not. -/
def accept (now : Int) : PeerState :=
  startRead now (initPeer PeerRole.REMOTE_CALLED_US now)

/-- `TCPPeer::connected` (lines 284-288): the body is exactly `startRead()`;
it does not arm the idle timer. -/
def connected (now : Int) (s : PeerState) : PeerState :=
  startRead now s

/-- Modelled from the spec: the 4-byte big-endian header encoding of a length
`L` produced by the upstream message-serialization collaborator (not under
src/): most-significant byte first, reserved top bit clear for
`L ≤ MAX_MESSAGE_SIZE`. -/
def encodeHeader (L : Nat) : List Nat :=
  [L / 16777216, L / 65536 % 256, L / 256 % 256, L % 256]

/-- The outbound-write subsystem of a `TCPPeer`, plus ghost instrumentation.

Source fields: `mWriteQueue` → `queue` (messages are identified by `Nat` ids;
their bytes are opaque to this layer); `mState` (base class) → `pstate`;
`mLastWrite` → `lastWrite`; meters `mErrorWrite`, `mMessageWrite`,
`mByteWrite` → counters.

Ghost fields: `enqueued` records every id ever passed to `sendMessage`, in
order; `started` records every id whose `asio::async_write` was initiated by
`messageSender`, in order; `completedW` records every id popped from the
queue after its write completion was observed; `inFlight` counts the
outstanding `async_write` operations. -/
structure WriteState where
  pstate : PState
  lastWrite : Int
  queue : List Nat
  enqueued : List Nat
  started : List Nat
  completedW : List Nat
  inFlight : Nat
  errorWrite : Nat
  messageWrite : Nat
  byteWrite : Nat
deriving DecidableEq, Repr

/-- The write-side projection of `TCPPeer::drop` (lines 385-418): the guard
and the transition to `CLOSING` (registry/close effects are tracked in the
`PeerState` model). -/
def dropW (s : WriteState) : WriteState :=
  if s.pstate = PState.CLOSING then s
  else { s with pstate := PState.CLOSING }

/-- `TCPPeer::messageSender` (lines 175-201): if the queue is empty, return;
otherwise set `mLastWrite` to the current time, peek (do NOT pop) the front
buffer, and initiate `asio::async_write` of exactly that buffer. -/
def messageSender (now : Int) (s : WriteState) : WriteState :=
  match s.queue with
  | [] => s
  | m :: _ =>
    { s with
      lastWrite := now
      inFlight := s.inFlight + 1
      started := s.started ++ [m] }

/-- `TCPPeer::sendMessage` (lines 157-173): record whether the queue was
empty, append the buffer, and kick off `messageSender` only if it was. -/
def sendMessage (m : Nat) (now : Int) (s : WriteState) : WriteState :=
  let wasEmpty := s.queue.isEmpty
  let s1 := { s with queue := s.queue ++ [m], enqueued := s.enqueued ++ [m] }
  if wasEmpty then messageSender now s1 else s1

/-- `TCPPeer::writeHandler` (lines 203-224): on error, mark `mErrorWrite`
(only while connected) and `drop()`; on success, mark `mMessageWrite` and
`mByteWrite`. -/
def writeHandler (error : Bool) (bytes : Nat) (s : WriteState) : WriteState :=
  if error then
    let s1 := if s.pstate = PState.CONNECTED
      then { s with errorWrite := s.errorWrite + 1 } else s
    dropW s1
  else
    { s with messageWrite := s.messageWrite + 1, byteWrite := s.byteWrite + bytes }

/-- The strand-wrapped write-completion lambda of `messageSender`
(lines 195-200): `writeHandler(ec, length); mWriteQueue.pop(); messageSender()`
— unconditionally, whatever `writeHandler` did. -/
def writeCompletion (error : Bool) (bytes : Nat) (now : Int) (s : WriteState) :
    WriteState :=
  let s1 := writeHandler error bytes s
  let s2 :=
    { s1 with
      queue := s1.queue.tail
      completedW := s1.completedW ++ s1.queue.take 1
      inFlight := s1.inFlight - 1 }
  messageSender now s2

/-- An externally-observable event of the write subsystem: a caller invoking
`sendMessage`, or the strand delivering a write completion. -/
inductive WEvent where
  | send : Nat → Int → WEvent
  | complete : Bool → Nat → Int → WEvent
deriving DecidableEq, Repr

/-- One event step of the write subsystem. -/
def wstep (s : WriteState) : WEvent → WriteState
  | WEvent.send m now => sendMessage m now s
  | WEvent.complete error bytes now => writeCompletion error bytes now s

/-- Run a trace of write-subsystem events from a state. -/
def wrun (s : WriteState) : List WEvent → WriteState
  | [] => s
  | e :: es => wrun (wstep s e) es

/-- Trace validity: asio delivers a write completion only while a write is
actually outstanding (exactly one completion fires per initiated write). -/
def validFrom (s : WriteState) : List WEvent → Bool
  | [] => true
  | e :: es =>
    (match e with
     | WEvent.send _ _ => true
     | WEvent.complete _ _ _ => decide (0 < s.inFlight)) && validFrom (wstep s e) es

/-- A freshly connected peer with an empty write queue. -/
def initWrite : WriteState :=
  { pstate := PState.CONNECTED
    lastWrite := 0
    queue := []
    enqueued := []
    started := []
    completedW := []
    inFlight := 0
    errorWrite := 0
    messageWrite := 0
    byteWrite := 0 }

/-- The single-flight FIFO invariant of the write subsystem: at most one
write is outstanding; the writes initiated so far are exactly the popped
frames followed by the in-flight front of the queue; every frame ever
enqueued is either popped (strictly after its completion was observed) or
still in the queue. -/
def WInv (s : WriteState) : Prop :=
  s.inFlight ≤ 1 ∧
  s.inFlight ≤ s.queue.length ∧
  s.started = s.completedW ++ s.queue.take s.inFlight ∧
  s.enqueued = s.completedW ++ s.queue

theorem lor_mul_two_pow_add (n x b : Nat) (hb : b < 2 ^ n) :
    (2 ^ n * x) ||| b = 2 ^ n * x + b := by
  induction n generalizing x b with
  | zero =>
    have hb0 : b = 0 := by omega
    subst hb0
    simp
  | succ n ih =>
    have hpow : (2 : Nat) ^ (n + 1) = 2 * 2 ^ n := by rw [pow_succ]; ring
    have key : 2 ^ (n + 1) * x = 2 * (2 ^ n * x) := by rw [hpow]; ring
    rw [key]
    have hdm := Nat.div_add_mod ((2 * (2 ^ n * x)) ||| b) 2
    have hdiv : ((2 * (2 ^ n * x)) ||| b) / 2 = (2 ^ n * x) ||| (b / 2) := by
      rw [Nat.or_div_two]
      congr 1
      omega
    have hb2 : b / 2 < 2 ^ n := by omega
    have hih := ih x (b / 2) hb2
    have hiff : ((2 * (2 ^ n * x)) ||| b) % 2 = 1 ↔
        (2 * (2 ^ n * x)) % 2 = 1 ∨ b % 2 = 1 := Nat.or_mod_two_eq_one
    have h2t : (2 * (2 ^ n * x)) % 2 = 0 := by omega
    have hlt : ((2 * (2 ^ n * x)) ||| b) % 2 < 2 := Nat.mod_lt _ (by norm_num)
    have hmod : ((2 * (2 ^ n * x)) ||| b) % 2 = b % 2 := by
      by_cases hb1 : b % 2 = 1
      · rw [hiff.mpr (Or.inr hb1), hb1]
      · have hno : ¬ ((2 * (2 ^ n * x)) ||| b) % 2 = 1 := by
          intro h1
          rcases hiff.mp h1 with h | h
          · omega
          · exact hb1 h
        omega
    omega

theorem shiftLeft_eight_or (x b : Nat) (hb : b < 256) :
    (x <<< 8) ||| b = x * 256 + b := by
  rw [Nat.shiftLeft_eq, Nat.mul_comm]
  have h := lor_mul_two_pow_add 8 x b (by norm_num; omega)
  norm_num at h ⊢
  omega

theorem decode_bytes (a b c d : Nat) (ha : a < 128) (hb : b < 256)
    (hc : c < 256) (hd : d < 256) :
    getIncomingMsgLengthValue [a, b, c, d] =
      ((a * 256 + b) * 256 + c) * 256 + d := by
  unfold getIncomingMsgLengthValue
  simp only [List.getD_cons_zero, List.getD_cons_succ]
  have h1 : a &&& 127 = a := by
    have h2 := Nat.and_pow_two_sub_one_eq_mod a 7
    norm_num at h2
    rw [h2]
    omega
  show ((((a &&& 127) <<< 8 ||| b) <<< 8 ||| c) <<< 8) ||| d = _
  rw [h1, shiftLeft_eight_or a b hb, shiftLeft_eight_or _ c hc,
    shiftLeft_eight_or _ d hd]

/-- C6: Header decode round-trip: for every length L with
0 ≤ L ≤ 16,777,216 = MAX_MESSAGE_SIZE, running `getIncomingMsgLength` on a
state whose header buffer holds the 4-byte big-endian encoding of L yields
exactly L, and the state is returned unchanged: no error meter is marked and
no drop is triggered. -/
theorem c6_header_roundtrip (L : Nat) (hL : L ≤ MAX_MESSAGE_SIZE)
    (s : PeerState) (hs : s.header = encodeHeader L) :
    getIncomingMsgLength s = (s, L) := by
  have hMAX : MAX_MESSAGE_SIZE = 16777216 := by norm_num [MAX_MESSAGE_SIZE]
  rw [hMAX] at hL
  have hdec : getIncomingMsgLengthValue s.header = L := by
    rw [hs]
    unfold encodeHeader
    rw [decode_bytes (L / 16777216) (L / 65536 % 256) (L / 256 % 256) (L % 256)
      (by omega) (by omega) (by omega) (by omega)]
    omega
  unfold getIncomingMsgLength
  rw [hdec, hMAX]
  simp only [if_neg (by omega : ¬ L > 16777216)]

/-- C6 witness: the concrete length 5 round-trips through the decoder with the
state untouched. -/
theorem c6_header_roundtrip_witness :
    getIncomingMsgLength
      { initPeer PeerRole.REMOTE_CALLED_US 0 with header := encodeHeader 5 } =
      ({ initPeer PeerRole.REMOTE_CALLED_US 0 with header := encodeHeader 5 }, 5) :=
  c6_header_roundtrip 5 (by decide)
    { initPeer PeerRole.REMOTE_CALLED_US 0 with header := encodeHeader 5 } rfl

theorem drop_of_closing {s : PeerState} (h : s.state = PState.CLOSING) :
    drop s = s := by
  simp [drop, h]

theorem drop_iterate_fixed (k : Nat) (t : PeerState)
    (h : t.state = PState.CLOSING) : drop^[k] t = t := by
  induction k with
  | zero => rfl
  | succ k ih => rw [Function.iterate_succ_apply, drop_of_closing h, ih]

/-- C2: drop() is idempotent: from any not-yet-closing state, n ≥ 1 calls to
drop produce exactly one deregistration call and exactly one stream-close
call, leave the state CLOSING, and every call after the first is a no-op
(n calls have the same effect as one). -/
theorem c2_drop_idempotent (s : PeerState) (n : Nat)
    (h : s.state ≠ PState.CLOSING) (hn : 1 ≤ n) :
    (drop^[n] s).state = PState.CLOSING ∧
    (drop^[n] s).deregCalls = s.deregCalls + 1 ∧
    (drop^[n] s).closeCalls = s.closeCalls + 1 ∧
    drop^[n] s = drop s := by
  have hstate : (drop s).state = PState.CLOSING := by simp [drop, h]
  obtain ⟨m, rfl⟩ : ∃ m, n = m + 1 := ⟨n - 1, by omega⟩
  rw [Function.iterate_succ_apply, drop_iterate_fixed m (drop s) hstate]
  refine ⟨hstate, ?_, ?_, rfl⟩ <;> simp [drop, h]

/-- C2 witness: three drop calls on a fresh acceptor behave as one. -/
theorem c2_drop_idempotent_witness :
    (drop^[3] (initPeer PeerRole.REMOTE_CALLED_US 0)).state = PState.CLOSING ∧
    (drop^[3] (initPeer PeerRole.REMOTE_CALLED_US 0)).deregCalls = 0 + 1 ∧
    (drop^[3] (initPeer PeerRole.REMOTE_CALLED_US 0)).closeCalls = 0 + 1 ∧
    drop^[3] (initPeer PeerRole.REMOTE_CALLED_US 0) =
      drop (initPeer PeerRole.REMOTE_CALLED_US 0) :=
  c2_drop_idempotent (initPeer PeerRole.REMOTE_CALLED_US 0) 3 (by decide) (by decide)

/-- C5: on a watchdog tick without a timer error: a read stall (now − lastRead
strictly above the 30-second interval) is classified read-timeout and drops;
otherwise a write stall is classified write-timeout and drops; otherwise the
timer is re-armed for one more interval and nothing else changes. -/
theorem c5_idle_timer_classification (s : PeerState) (now : Int) :
    (now - s.lastRead > IO_TIMEOUT_SECONDS →
      (idleTimerExpired false now s).state = PState.CLOSING ∧
      (idleTimerExpired false now s).timeoutRead = s.timeoutRead + 1 ∧
      (idleTimerExpired false now s).timeoutWrite = s.timeoutWrite) ∧
    (now - s.lastRead ≤ IO_TIMEOUT_SECONDS →
      now - s.lastWrite > IO_TIMEOUT_SECONDS →
      (idleTimerExpired false now s).state = PState.CLOSING ∧
      (idleTimerExpired false now s).timeoutWrite = s.timeoutWrite + 1 ∧
      (idleTimerExpired false now s).timeoutRead = s.timeoutRead) ∧
    (now - s.lastRead ≤ IO_TIMEOUT_SECONDS →
      now - s.lastWrite ≤ IO_TIMEOUT_SECONDS →
      s.state ≠ PState.CLOSING →
      idleTimerExpired false now s = { s with timerArmed := true }) := by
  refine ⟨?_, ?_, ?_⟩
  · intro h1
    simp only [idleTimerExpired, Bool.not_false, if_pos h1, if_true]
    by_cases hs : s.state = PState.CLOSING <;> simp [drop, hs]
  · intro h1 h2
    simp only [idleTimerExpired, Bool.not_false, if_neg (not_lt.mpr h1),
      if_pos h2, if_true]
    by_cases hs : s.state = PState.CLOSING <;> simp [drop, hs]
  · intro h1 h2 hs
    simp only [idleTimerExpired, Bool.not_false, if_neg (not_lt.mpr h1),
      if_neg (not_lt.mpr h2), if_true]
    simp [startIdleTimer, shouldAbort, hs]

/-- C5 witness: a fresh acceptor at tick time 100 is a read timeout; one with
recent reads but stalled writes is a write timeout; one with both recent is
re-armed. -/
theorem c5_idle_timer_classification_witness :
    ((idleTimerExpired false 100 (initPeer PeerRole.REMOTE_CALLED_US 0)).state =
        PState.CLOSING ∧
      (idleTimerExpired false 100 (initPeer PeerRole.REMOTE_CALLED_US 0)).timeoutRead =
        (initPeer PeerRole.REMOTE_CALLED_US 0).timeoutRead + 1 ∧
      (idleTimerExpired false 100 (initPeer PeerRole.REMOTE_CALLED_US 0)).timeoutWrite =
        (initPeer PeerRole.REMOTE_CALLED_US 0).timeoutWrite) ∧
    ((idleTimerExpired false 100
        { initPeer PeerRole.REMOTE_CALLED_US 0 with lastRead := 100 }).state =
        PState.CLOSING ∧
      (idleTimerExpired false 100
        { initPeer PeerRole.REMOTE_CALLED_US 0 with lastRead := 100 }).timeoutWrite =
        { initPeer PeerRole.REMOTE_CALLED_US 0 with lastRead := 100 }.timeoutWrite + 1 ∧
      (idleTimerExpired false 100
        { initPeer PeerRole.REMOTE_CALLED_US 0 with lastRead := 100 }).timeoutRead =
        { initPeer PeerRole.REMOTE_CALLED_US 0 with lastRead := 100 }.timeoutRead) ∧
    idleTimerExpired false 10 (initPeer PeerRole.REMOTE_CALLED_US 0) =
      { initPeer PeerRole.REMOTE_CALLED_US 0 with timerArmed := true } :=
  ⟨(c5_idle_timer_classification (initPeer PeerRole.REMOTE_CALLED_US 0) 100).1
      (by decide),
   (c5_idle_timer_classification
      { initPeer PeerRole.REMOTE_CALLED_US 0 with lastRead := 100 } 100).2.1
      (by decide) (by decide),
   (c5_idle_timer_classification (initPeer PeerRole.REMOTE_CALLED_US 0) 10).2.2
      (by decide) (by decide) (by decide)⟩

/-- C10: once the state is CLOSING, startRead and startIdleTimer are no-ops:
no fresh read is issued and no fresh timer wait is armed (both are guarded by
shouldAbort). -/
theorem c10_closing_no_new_ops (s : PeerState) (now : Int)
    (h : s.state = PState.CLOSING) :
    startRead now s = s ∧ startIdleTimer s = s := by
  constructor <;> simp [startRead, startIdleTimer, shouldAbort, h]

/-- C10 witness: a dropped acceptor ignores startRead and startIdleTimer. -/
theorem c10_closing_no_new_ops_witness :
    startRead 5 (drop (initPeer PeerRole.REMOTE_CALLED_US 0)) =
      drop (initPeer PeerRole.REMOTE_CALLED_US 0) ∧
    startIdleTimer (drop (initPeer PeerRole.REMOTE_CALLED_US 0)) =
      drop (initPeer PeerRole.REMOTE_CALLED_US 0) :=
  c10_closing_no_new_ops (drop (initPeer PeerRole.REMOTE_CALLED_US 0)) 5 (by decide)

/-- C1: evaluating the code at the forged header FF FF FF FF: the masked
31-bit length 0x7FFFFFFF exceeds MAX_MESSAGE_SIZE, `mErrorRead` is marked and
the connection IS dropped and the sink is never invoked — but
`getIncomingMsgLength` still returns the oversized length, so
`readHeaderHandler` resizes the body buffer to 0x7FFFFFFF bytes and issues
the body read anyway: the body-sized allocation and the body read are NOT
prevented, contrary to the claim and to the intent of the bound check. -/
theorem c1_oversize_drops_but_still_allocates :
    (readHeaderHandler false 4
      { accept 0 with header := [255, 255, 255, 255] }).state = PState.CLOSING ∧
    (readHeaderHandler false 4
      { accept 0 with header := [255, 255, 255, 255] }).errorRead = 1 ∧
    (readHeaderHandler false 4
      { accept 0 with header := [255, 255, 255, 255] }).sinkCalls = 0 ∧
    (readHeaderHandler false 4
      { accept 0 with header := [255, 255, 255, 255] }).bodySize = 0x7fffffff ∧
    (readHeaderHandler false 4
      { accept 0 with header := [255, 255, 255, 255] }).bodyReadPending = true := by
  decide

/-- C7 counterexample: an Acceptor transitions to Connected at accept() and
the first header read is issued, yet the idle watchdog is NOT armed —
`TCPPeer::accept` never calls `startIdleTimer`. -/
theorem c7_watchdog_not_armed_counterexample :
    (accept 0).state = PState.CONNECTED ∧
    (accept 0).headerReadPending = true ∧
    (accept 0).timerArmed = false := by
  decide

/-- C7 amended: on every transition to Connected — accept() for an Acceptor,
connected() for an Initiator — the first header read is issued, but neither
path arms the idle watchdog: accept leaves the timer unarmed and connected()
leaves the armed flag exactly as it was. -/
theorem c7_amended_read_issued_watchdog_unarmed (now : Int) :
    ((accept now).state = PState.CONNECTED ∧
      (accept now).headerReadPending = true ∧
      (accept now).timerArmed = false) ∧
    (∀ s : PeerState, s.state ≠ PState.CLOSING →
      (connected now s).headerReadPending = true ∧
      (connected now s).timerArmed = s.timerArmed) := by
  constructor
  · refine ⟨?_, ?_, ?_⟩ <;> simp [accept, startRead, initPeer, shouldAbort]
  · intro s hs
    constructor <;> simp [connected, startRead, shouldAbort, hs]

/-- C7 amended witness: a concrete accept at time 0 and a concrete connected
Initiator. -/
theorem c7_amended_read_issued_watchdog_unarmed_witness :
    ((accept 0).state = PState.CONNECTED ∧
      (accept 0).headerReadPending = true ∧
      (accept 0).timerArmed = false) ∧
    ((connected 0 { initPeer PeerRole.WE_CALLED_REMOTE 0 with
        state := PState.CONNECTED }).headerReadPending = true ∧
      (connected 0 { initPeer PeerRole.WE_CALLED_REMOTE 0 with
        state := PState.CONNECTED }).timerArmed =
      { initPeer PeerRole.WE_CALLED_REMOTE 0 with
        state := PState.CONNECTED }.timerArmed) :=
  ⟨(c7_amended_read_issued_watchdog_unarmed 0).1,
   (c7_amended_read_issued_watchdog_unarmed 0).2
     { initPeer PeerRole.WE_CALLED_REMOTE 0 with state := PState.CONNECTED }
     (by decide)⟩

/-- C8: the owned stream handle is closed exactly once over the connection's
lifetime — at Closing entry (drop) or at destruction — never before and never
twice: a connection destroyed without being dropped is closed once by the
destructor; a dropped connection is closed once by drop(), and the
destructor's throwing cancel() then fails with bad_descriptor on the
already-closed socket, so its close() is skipped — including after any number
of repeated drop triggers. -/
theorem c8_close_exactly_once (s : PeerState) (h0 : s.closeCalls = 0)
    (hopen : s.socketOpen = true) (hs : s.state ≠ PState.CLOSING) :
    (destruct s).closeCalls = 1 ∧
    (drop s).closeCalls = 1 ∧
    (destruct (drop s)).closeCalls = 1 ∧
    ∀ n : Nat, 1 ≤ n → (destruct (drop^[n] s)).closeCalls = 1 := by
  have hd1 : (drop s).closeCalls = 1 := by simp [drop, hs, h0]
  have hdopen : (drop s).socketOpen = false := by simp [drop, hs]
  have hddest : (destruct (drop s)).closeCalls = 1 := by
    simp [destruct, hdopen, hd1]
  refine ⟨by simp [destruct, hopen, h0], hd1, hddest, ?_⟩
  intro n hn
  obtain ⟨m, rfl⟩ : ∃ m, n = m + 1 := ⟨n - 1, by omega⟩
  rw [Function.iterate_succ_apply,
    drop_iterate_fixed m (drop s) (by simp [drop, hs])]
  exact hddest

/-- C8 witness: a fresh acceptor, destroyed with and without prior drops
(including three stacked drop triggers). -/
theorem c8_close_exactly_once_witness :
    (destruct (initPeer PeerRole.REMOTE_CALLED_US 0)).closeCalls = 1 ∧
    (drop (initPeer PeerRole.REMOTE_CALLED_US 0)).closeCalls = 1 ∧
    (destruct (drop (initPeer PeerRole.REMOTE_CALLED_US 0))).closeCalls = 1 ∧
    (destruct (drop^[3] (initPeer PeerRole.REMOTE_CALLED_US 0))).closeCalls = 1 :=
  have h := c8_close_exactly_once (initPeer PeerRole.REMOTE_CALLED_US 0)
    (by decide) (by decide) (by decide)
  ⟨h.1, h.2.1, h.2.2.1, h.2.2.2 3 (by decide)⟩

/-- C9 counterexample: timestamps are not updated at successful completion.
A read initiated at time 0 whose header completion is delivered later (the
handler takes no clock reading at all) leaves lastRead at the initiation
time 0; a write initiated at time 2 whose successful completion is delivered
at time 9 leaves lastWrite at the initiation time 2. -/
theorem c9_timestamps_counterexample :
    (readHeaderHandler false 4
      { accept 0 with header := encodeHeader 5 }).lastRead = 0 ∧
    (writeCompletion false 10 9 (sendMessage 1 2 initWrite)).lastWrite = 2 ∧
    (2 : Int) ≠ 9 := by
  decide

/-- C9 amended: lastRead is updated at read initiation — startRead sets it to
the current time — and lastWrite at write initiation — messageSender sets it
when it starts a write; the successful completion handlers themselves
(readHeaderHandler, writeHandler) leave the timestamps unchanged. -/
theorem c9_amended_timestamps_at_initiation :
    (∀ (now : Int) (s : PeerState), shouldAbort s = false →
      (startRead now s).lastRead = now) ∧
    (∀ (now : Int) (s : WriteState) (m : Nat) (rest : List Nat),
      s.queue = m :: rest → (messageSender now s).lastWrite = now) ∧
    (∀ (bytes : Nat) (s : PeerState),
      (readHeaderHandler false bytes s).lastRead = s.lastRead) ∧
    (∀ (error : Bool) (bytes : Nat) (s : WriteState),
      (writeHandler error bytes s).lastWrite = s.lastWrite) := by
  refine ⟨?_, ?_, ?_, ?_⟩
  · intro now s h
    simp [startRead, h]
  · intro now s m rest h
    simp [messageSender, h]
  · intro bytes s
    simp only [readHeaderHandler, getIncomingMsgLength, Bool.not_false, if_true, drop]
    split
    · split <;> rfl
    · rfl
  · intro e b s
    simp only [writeHandler, dropW]
    split
    · split <;> split <;> rfl
    · rfl

/-- C9 amended witness: concrete initiations and completions. -/
theorem c9_amended_timestamps_at_initiation_witness :
    (startRead 7 (initPeer PeerRole.REMOTE_CALLED_US 0)).lastRead = 7 ∧
    (messageSender 7 (sendMessage 3 0 initWrite)).lastWrite = 7 ∧
    (readHeaderHandler false 4 (initPeer PeerRole.REMOTE_CALLED_US 0)).lastRead =
      (initPeer PeerRole.REMOTE_CALLED_US 0).lastRead ∧
    (writeHandler true 4 initWrite).lastWrite = initWrite.lastWrite :=
  ⟨c9_amended_timestamps_at_initiation.1 7 (initPeer PeerRole.REMOTE_CALLED_US 0)
      (by decide),
   c9_amended_timestamps_at_initiation.2.1 7 (sendMessage 3 0 initWrite) 3 []
      (by decide),
   c9_amended_timestamps_at_initiation.2.2.1 4 (initPeer PeerRole.REMOTE_CALLED_US 0),
   c9_amended_timestamps_at_initiation.2.2.2 true 4 initWrite⟩

/-- C4 counterexample: frames 1 and 2 enqueued, then the write of frame 1
completes with an error: the error is recorded and drop fires, but the
completion lambda pops and re-invokes messageSender, so the write of frame 2
IS initiated after the errored completion (started = [1, 2]). -/
theorem c4_drain_continues_counterexample :
    validFrom initWrite
      [WEvent.send 1 0, WEvent.send 2 0, WEvent.complete true 0 1] = true ∧
    (wrun initWrite
      [WEvent.send 1 0, WEvent.send 2 0, WEvent.complete true 0 1]).errorWrite = 1 ∧
    (wrun initWrite
      [WEvent.send 1 0, WEvent.send 2 0, WEvent.complete true 0 1]).pstate =
      PState.CLOSING ∧
    (wrun initWrite
      [WEvent.send 1 0, WEvent.send 2 0, WEvent.complete true 0 1]).started =
      [1, 2] := by
  decide

/-- C4 amended: when a write completion reports an error (while connected),
the connection records the error and triggers drop; however the completion
lambda unconditionally pops the frame and re-invokes messageSender, so the
write of the next queued frame is still initiated (it will itself complete
with an error on the closed socket). -/
theorem c4_amended_error_recorded_but_drains (s : WriteState) (f g : Nat)
    (rest : List Nat) (bytes : Nat) (now : Int)
    (hq : s.queue = f :: g :: rest) (hc : s.pstate = PState.CONNECTED) :
    (writeCompletion true bytes now s).errorWrite = s.errorWrite + 1 ∧
    (writeCompletion true bytes now s).pstate = PState.CLOSING ∧
    (writeCompletion true bytes now s).started = s.started ++ [g] := by
  simp [writeCompletion, writeHandler, dropW, messageSender, hq, hc]

/-- C4 amended witness: the two-frame trace with an errored first write. -/
theorem c4_amended_error_recorded_but_drains_witness :
    (writeCompletion true 0 1
      (wrun initWrite [WEvent.send 1 0, WEvent.send 2 0])).errorWrite =
      (wrun initWrite [WEvent.send 1 0, WEvent.send 2 0]).errorWrite + 1 ∧
    (writeCompletion true 0 1
      (wrun initWrite [WEvent.send 1 0, WEvent.send 2 0])).pstate =
      PState.CLOSING ∧
    (writeCompletion true 0 1
      (wrun initWrite [WEvent.send 1 0, WEvent.send 2 0])).started =
      (wrun initWrite [WEvent.send 1 0, WEvent.send 2 0]).started ++ [2] :=
  c4_amended_error_recorded_but_drains
    (wrun initWrite [WEvent.send 1 0, WEvent.send 2 0]) 1 2 [] 0 1
    (by decide) (by decide)

theorem writeHandler_preserves (error : Bool) (bytes : Nat) (s : WriteState) :
    (writeHandler error bytes s).queue = s.queue ∧
    (writeHandler error bytes s).enqueued = s.enqueued ∧
    (writeHandler error bytes s).started = s.started ∧
    (writeHandler error bytes s).completedW = s.completedW ∧
    (writeHandler error bytes s).inFlight = s.inFlight := by
  refine ⟨?_, ?_, ?_, ?_, ?_⟩ <;>
    (simp only [writeHandler, dropW]; split_ifs <;> rfl)

theorem winv_send (s : WriteState) (m : Nat) (now : Int) (h : WInv s) :
    WInv (sendMessage m now s) := by
  obtain ⟨h1, h2, h3, h4⟩ := h
  cases hq : s.queue with
  | nil =>
    have hif : s.inFlight = 0 := by rw [hq] at h2; simpa using h2
    rw [hq] at h3 h4
    simp only [List.take_nil, List.append_nil] at h3 h4
    simp only [sendMessage, messageSender, hq, List.isEmpty_nil, List.nil_append,
      if_true]
    refine ⟨?_, ?_, ?_, ?_⟩
    · show s.inFlight + 1 ≤ 1
      omega
    · show s.inFlight + 1 ≤ [m].length
      simp [hif]
    · show s.started ++ [m] = s.completedW ++ [m].take (s.inFlight + 1)
      simp [hif, h3]
    · show s.enqueued ++ [m] = s.completedW ++ [m]
      simp [h4]
  | cons f rest =>
    rw [hq] at h2 h3 h4
    simp only [sendMessage, hq, List.isEmpty_cons, Bool.false_eq_true, if_false]
    refine ⟨h1, ?_, ?_, ?_⟩
    · show s.inFlight ≤ ((f :: rest) ++ [m]).length
      simp only [List.length_append, List.length_cons] at h2 ⊢
      omega
    · show s.started = s.completedW ++ ((f :: rest) ++ [m]).take s.inFlight
      rcases Nat.le_one_iff_eq_zero_or_eq_one.mp h1 with h0 | h0 <;>
        rw [h0] at h3 ⊢ <;>
        simp only [List.take_zero, List.cons_append, List.take_succ_cons,
          List.append_nil] at h3 ⊢ <;>
        exact h3
    · show s.enqueued ++ [m] = s.completedW ++ ((f :: rest) ++ [m])
      rw [h4, List.append_assoc]

theorem winv_complete (error : Bool) (bytes : Nat) (now : Int) (s : WriteState)
    (hif : 0 < s.inFlight) (h : WInv s) :
    WInv (writeCompletion error bytes now s) := by
  obtain ⟨h1, h2, h3, h4⟩ := h
  have hif1 : s.inFlight = 1 := by omega
  obtain ⟨f, rest, hq⟩ : ∃ f rest, s.queue = f :: rest := by
    cases hqq : s.queue with
    | nil => rw [hqq, hif1] at h2; simp at h2
    | cons f rest => exact ⟨f, rest, rfl⟩
  obtain ⟨p1, p2, p3, p4, p5⟩ := writeHandler_preserves error bytes s
  rw [hq] at h3 h4
  rw [hif1] at h3
  simp only [List.take_succ_cons, List.take_zero, List.append_nil] at h3
  unfold writeCompletion
  simp only [p1, p2, p3, p4, p5, hq, hif1, List.tail_cons, List.take_succ_cons,
    List.take_zero, Nat.sub_self]
  cases rest with
  | nil =>
    refine ⟨?_, ?_, ?_, ?_⟩
    · simp [messageSender]
    · simp [messageSender]
    · simp [messageSender, p3, h3]
    · simp [messageSender, p2, p4, h4]
  | cons g t =>
    refine ⟨?_, ?_, ?_, ?_⟩
    · simp [messageSender]
    · simp [messageSender]
    · simp [messageSender, p3, h3]
    · simp [messageSender, p2, p4, h4]

theorem winv_initWrite : WInv initWrite := by
  refine ⟨by decide, by decide, rfl, rfl⟩

theorem winv_run (es : List WEvent) :
    ∀ s : WriteState, WInv s → validFrom s es = true → WInv (wrun s es) := by
  induction es with
  | nil => intro s h _; exact h
  | cons e rest ih =>
    intro s h hv
    unfold validFrom at hv
    rw [Bool.and_eq_true] at hv
    obtain ⟨hc, hrest⟩ := hv
    unfold wrun
    refine ih (wstep s e) ?_ hrest
    cases e with
    | send m now => exact winv_send s m now h
    | complete error bytes now =>
      refine winv_complete error bytes now s ?_ h
      simpa using hc

/-- C3: along every valid event trace of the write subsystem (completions
delivered only while a write is outstanding), at most one write is ever
outstanding; the sequence of initiated writes equals the popped frames
followed by the still-queued in-flight front (so the front frame is removed
only strictly after its completion is observed); every enqueued frame is
either popped or still queued; and the initiated writes are a prefix of the
enqueue order — strict FIFO transmission. -/
theorem c3_fifo_single_flight (es : List WEvent)
    (hv : validFrom initWrite es = true) :
    (wrun initWrite es).inFlight ≤ 1 ∧
    (wrun initWrite es).started =
      (wrun initWrite es).completedW ++
        (wrun initWrite es).queue.take (wrun initWrite es).inFlight ∧
    (wrun initWrite es).enqueued =
      (wrun initWrite es).completedW ++ (wrun initWrite es).queue ∧
    ∃ t, (wrun initWrite es).enqueued = (wrun initWrite es).started ++ t := by
  obtain ⟨h1, h2, h3, h4⟩ := winv_run es initWrite winv_initWrite hv
  refine ⟨h1, h3, h4, ?_⟩
  refine ⟨(wrun initWrite es).queue.drop (wrun initWrite es).inFlight, ?_⟩
  rw [h4, h3, List.append_assoc, List.take_append_drop]

/-- C3 witness: the trace that enqueues frames 7 and 8 and observes both
successful completions is valid and satisfies the invariant. -/
theorem c3_fifo_single_flight_witness :
    validFrom initWrite
      [WEvent.send 7 0, WEvent.send 8 1, WEvent.complete false 5 2,
        WEvent.complete false 5 3] = true ∧
    ((wrun initWrite
      [WEvent.send 7 0, WEvent.send 8 1, WEvent.complete false 5 2,
        WEvent.complete false 5 3]).inFlight ≤ 1 ∧
    (wrun initWrite
      [WEvent.send 7 0, WEvent.send 8 1, WEvent.complete false 5 2,
        WEvent.complete false 5 3]).started =
      (wrun initWrite
      [WEvent.send 7 0, WEvent.send 8 1, WEvent.complete false 5 2,
        WEvent.complete false 5 3]).completedW ++
        (wrun initWrite
      [WEvent.send 7 0, WEvent.send 8 1, WEvent.complete false 5 2,
        WEvent.complete false 5 3]).queue.take (wrun initWrite
      [WEvent.send 7 0, WEvent.send 8 1, WEvent.complete false 5 2,
        WEvent.complete false 5 3]).inFlight ∧
    (wrun initWrite
      [WEvent.send 7 0, WEvent.send 8 1, WEvent.complete false 5 2,
        WEvent.complete false 5 3]).enqueued =
      (wrun initWrite
      [WEvent.send 7 0, WEvent.send 8 1, WEvent.complete false 5 2,
        WEvent.complete false 5 3]).completedW ++ (wrun initWrite
      [WEvent.send 7 0, WEvent.send 8 1, WEvent.complete false 5 2,
        WEvent.complete false 5 3]).queue ∧
    ∃ t, (wrun initWrite
      [WEvent.send 7 0, WEvent.send 8 1, WEvent.complete false 5 2,
        WEvent.complete false 5 3]).enqueued = (wrun initWrite
      [WEvent.send 7 0, WEvent.send 8 1, WEvent.complete false 5 2,
        WEvent.complete false 5 3]).started ++ t) :=
  ⟨by decide,
   c3_fifo_single_flight
     [WEvent.send 7 0, WEvent.send 8 1, WEvent.complete false 5 2,
       WEvent.complete false 5 3] (by decide)⟩
